import Mathlib

/-!
Shallow embedding of the sticker-set install / reconciliation logic of
`src/Telegram/SourceFiles/boxes/sticker_set_box.cpp` (class `StickerSetBox::Inner`).

Modelling conventions:
* machine integers become `Nat` (ids, flags, dates) or `Int` (Qt index results,
  wire hashes); flag words are `Nat` bitmasks manipulated with `&&&`, `|||`, `^^^`;
* `QMap` (the sticker-set registry, the document store, the emoji map) becomes an
  association list with first-key lookup and in-place value update;
* `QVector<uint64>` order sequences become `List Nat`, with Qt's `indexOf`
  returning `-1 : Int` when absent and `removeAt` as `List.eraseIdx`;
* external collaborators (transport, persistence, notification bus, document
  store contents) are modelled as explicit state handed to the functions; the
  GUI-only members of `Inner` (`_elements`, `_selected`, preview/animation
  state) are omitted as they never feed back into the reconciliation logic.
-/

/-- Server-owned flag bit: `MTPDstickerSet::Flag::f_installed_date` (bit 0 of the
wire flag word; the generated scheme header is outside the excerpt, the bit
positions below only matter as distinct single bits). -/
def flagInstalledDate : Nat := 2 ^ 0

/-- Server-owned flag bit: `MTPDstickerSet::Flag::f_archived` (bit 1). -/
def flagArchived : Nat := 2 ^ 1

/-- Server-owned flag bit: `MTPDstickerSet::Flag::f_official` (bit 2). -/
def flagOfficial : Nat := 2 ^ 2

/-- Server-owned flag bit: `MTPDstickerSet::Flag::f_masks` (bit 3). -/
def flagMasks : Nat := 2 ^ 3

/-- Client-only flag bit `MTPDstickerSet_ClientFlag::f_not_loaded` (a high bit
never sent by the server). -/
def flagNotLoaded : Nat := 2 ^ 28

/-- Client-only flag bit `MTPDstickerSet_ClientFlag::f_featured`. -/
def flagFeatured : Nat := 2 ^ 29

/-- Client-only flag bit `MTPDstickerSet_ClientFlag::f_unread`. -/
def flagUnread : Nat := 2 ^ 30

/-- Client-only flag bit `MTPDstickerSet_ClientFlag::f_special`. -/
def flagSpecial : Nat := 2 ^ 31

/-- The mask of client-only bits preserved by `gotSet`, in the order the source
ors them together: `f_featured | f_not_loaded | f_unread | f_special`
(sticker_set_box.cpp lines 302-307). -/
def clientFlagsMask : Nat := flagFeatured ||| flagNotLoaded ||| flagUnread ||| flagSpecial

/-- C++ truthiness of `flags & mask`. -/
def hasFlag (flags mask : Nat) : Bool := flags &&& mask != 0

/-- C++ `flags &= ~mask` on a bitmask, written without an infinite complement:
clearing the bits of `mask` is xor-ing away the common bits. -/
def clearMask (flags mask : Nat) : Nat := flags ^^^ (flags &&& mask)

/-- The sentinel id of the synthetic recently-used bucket.
Modelled from the spec: `Stickers::CustomSetId` is declared in
`chat_helpers/stickers.h`, which is not part of the excerpt; the spec describes
it as "a sentinel identifier for a synthetic recently-used bucket", so only its
distinctness from ordinary set ids is relied upon. -/
def CustomSetId : Nat := 0xFFFFFFFFFFFFFFF0

/-- One entry of the sticker-set registry: `Stickers::Set` as used by this file
(identity, display data, counts, flag word, install date, thumbnail, plus the
pack and the emoji index filled in by `gotSet` / `installDone`). -/
structure StickersSet where
  id : Nat
  access : Nat
  title : String
  shortName : String
  count : Nat
  hash : Int
  flags : Nat
  installDate : Nat
  thumbnail : Option Nat
  stickers : List Nat
  emoji : List (String × List Nat)
  deriving Repr, DecidableEq

/-- The sticker-set registry `Stickers::Sets` (`QMap<uint64, Stickers::Set>`),
as an association list keyed by set id. -/
abbrev Sets := List (Nat × StickersSet)

/-- QMap lookup: the value at the first matching key, if any. -/
def setsFind (s : Sets) (k : Nat) : Option StickersSet :=
  match s with
  | [] => none
  | p :: rest => if p.1 = k then some p.2 else setsFind rest k

/-- In-place update of the value stored under key `k` (QMap iterator mutation). -/
def setsUpdate (s : Sets) (k : Nat) (f : StickersSet → StickersSet) : Sets :=
  s.map (fun p => if p.1 = k then (p.1, f p.2) else p)

/-- QMap::insert: replace the value under `k` if present, otherwise add the pair. -/
def setsInsert (s : Sets) (k : Nat) (v : StickersSet) : Sets :=
  match setsFind s k with
  | some _ => setsUpdate s k (fun _ => v)
  | none => s ++ [(k, v)]

/-- QMap::erase of the entry under key `k`. -/
def setsErase (s : Sets) (k : Nat) : Sets :=
  s.filter (fun p => p.1 ≠ k)

/-- The session document store, reduced to what the parser consults: for each
known document id, whether `document->sticker()` is non-null. -/
abbrev DocStore := List (Nat × Bool)

/-- Document-store lookup (`session().data().document(id)` followed by the
`sticker()` test; an id that was never ingested resolves to nothing). -/
def storeLookup (store : DocStore) (k : Nat) : Option Bool :=
  match store with
  | [] => none
  | p :: rest => if p.1 = k then some p.2 else storeLookup rest k

/-- Document ingestion (`session().data().processDocument(item)`): record the
wire document's sticker-ness under its id, replacing any stale entry. -/
def storeInsert (store : DocStore) (k : Nat) (b : Bool) : DocStore :=
  match storeLookup store k with
  | some _ => store.map (fun p => if p.1 = k then (p.1, b) else p)
  | none => store ++ [(k, b)]

/-- The emoji index `Stickers::ByEmojiMap` (`QMap<EmojiPtr, Pack>`), keyed by the
normalized emoji (its `original()` form). -/
abbrev EmojiMap := List (String × List Nat)

/-- QMap::insert on the emoji index. -/
def mapInsert (m : EmojiMap) (k : String) (v : List Nat) : EmojiMap :=
  match m.lookup k with
  | some _ => m.map (fun p => if p.1 = k then (p.1, v) else p)
  | none => m ++ [(k, v)]

/-- `QVector<uint64>::indexOf`: the first index holding `a`, or `-1`. -/
def qIndexOf (l : List Nat) (a : Nat) : Int :=
  match l with
  | [] => -1
  | x :: xs =>
    if x = a then 0
    else
      let r := qIndexOf xs a
      if r < 0 then -1 else r + 1

/-- The `indexOf` / `if (index >= 0) removeAt(index)` pattern used on the
archived order and on the custom bucket's sticker list. -/
def qRemoveOne (l : List Nat) (a : Nat) : List Nat :=
  let i := qIndexOf l a
  if i ≥ 0 then l.eraseIdx i.toNat else l

/-- The install-order update of `installDone` (sticker_set_box.cpp lines
374-381): `insertAtIndex = 0`; if `indexOf` differs from it, remove the id when
found at a positive index and insert it at the front. -/
def updateOrder (order : List Nat) (id : Nat) : List Nat :=
  let currentIndex := qIndexOf order id
  if currentIndex ≠ 0 then
    let order1 := if currentIndex > 0 then order.eraseIdx currentIndex.toNat else order
    id :: order1
  else order

/-- One wire document of the fetch response, reduced to what `gotSet` uses: its
id and whether, once processed, `document->sticker()` is non-null. -/
structure WireDoc where
  id : Nat
  isSticker : Bool
  deriving Repr, DecidableEq

/-- One `MTPDstickerPack` entry of the response: the emoji key as resolved by
`Ui::Emoji::Find(...)->original()` (`none` when `Find` fails), and the referenced
document ids. -/
structure WirePack where
  emojiOriginal : Option String
  documents : List Nat
  deriving Repr, DecidableEq

/-- The `MTPDstickerSet` payload of the response (title already passed through
`Stickers::GetSetTitle`, thumbnail already through `Images::Create`). -/
structure WireSet where
  id : Nat
  accessHash : Nat
  title : String
  shortName : String
  count : Nat
  hash : Int
  flags : Nat
  installedDate : Option Nat
  thumb : Option Nat
  deriving Repr, DecidableEq

/-- A whole `MTPmessages_StickerSet` fetch response. -/
structure WireResponse where
  set : WireSet
  documents : List WireDoc
  packs : List WirePack
  deriving Repr, DecidableEq

/-- The first loop of `gotSet` (lines 255-266): process every wire document into
the store, and push the ones that are stickers onto the pack. -/
def processDocuments (store : DocStore) (docs : List WireDoc) : DocStore × List Nat :=
  docs.foldl
    (fun acc d =>
      let store2 := storeInsert acc.1 d.id d.isSticker
      if d.isSticker then (store2, acc.2 ++ [d.id]) else (store2, acc.2))
    (store, [])

/-- The inner loop of the packs pass (lines 275-280): keep the referenced ids
that resolve in the store to a sticker document, silently skipping the rest. -/
def resolvePack (store : DocStore) (ids : List Nat) : List Nat :=
  ids.filter (fun i => (storeLookup store i).getD false)

/-- The second loop of `gotSet` (lines 267-284): for every pack whose emoticon
is a known emoji, insert the resolved pack under the emoji's original form. -/
def buildEmoji (store : DocStore) (packs : List WirePack) : EmojiMap :=
  packs.foldl
    (fun m p =>
      match p.emojiOriginal with
      | some o => mapInsert m o (resolvePack store p.documents)
      | none => m)
    []

/-- The non-GUI state of a `StickerSetBox::Inner` instance: `_pack`, `_emoji`,
`_loaded`, the `_set*` members and `_installRequest`. -/
structure InnerState where
  pack : List Nat
  emoji : EmojiMap
  loadedFlag : Bool
  setId : Nat
  setAccess : Nat
  setTitle : String
  setShortName : String
  setCount : Nat
  setHash : Int
  setFlags : Nat
  setInstallDate : Nat
  setThumbnail : Option Nat
  installRequest : Nat
  deriving Repr, DecidableEq

/-- The session data touched by this logic: `stickerSetsRef()`,
`stickerSetsOrderRef()` and `archivedStickerSetsOrderRef()`. -/
structure DataSession where
  sets : Sets
  order : List Nat
  archivedOrder : List Nat
  deriving Repr, DecidableEq

/-- An empty session data state. -/
def emptyData : DataSession :=
  { sets := [], order := [], archivedOrder := [] }

/-- The member state set up by the `Inner` constructor (lines 215-230): empty
pack and emoji index, `_loaded = false`, `_installRequest = 0`, and the id /
access hash / short name taken from the input sticker-set reference. -/
def initialInner (setId setAccess : Nat) (shortName : String) : InnerState :=
  { pack := [], emoji := [], loadedFlag := false,
    setId := setId, setAccess := setAccess,
    setTitle := "", setShortName := shortName,
    setCount := 0, setHash := 0, setFlags := 0,
    setInstallDate := 0, setThumbnail := none, installRequest := 0 }

/-- The fetch failure handler of the constructor (lines 236-239): set `_loaded`
and show the not-found box; the pack is left as it was. -/
def fetchFail (st : InnerState) : InnerState :=
  { st with loadedFlag := true }

/-- `Inner::loaded()` (lines 656-658): `_loaded && !_pack.isEmpty()`. -/
def innerLoaded (st : InnerState) : Bool :=
  st.loadedFlag && !st.pack.isEmpty

/-- The three shapes `Inner::title()` can take (lines 676-685). -/
inductive TitleState
  | loading
  | failed
  | named (t : String)
  deriving Repr, DecidableEq

/-- `Inner::title()`: loading while `_loaded` is unset, failed on an empty pack,
otherwise the parsed set title. -/
def innerTitle (st : InnerState) : TitleState :=
  if !st.loadedFlag then TitleState.loading
  else if st.pack.isEmpty then TitleState.failed
  else TitleState.named st.setTitle

/-- Whether `gotSet` fell into the `_pack.isEmpty()` branch that shows the
not-found box (line 319) instead of completing the load. -/
inductive FetchOutcome
  | notFound
  | ok
  deriving Repr, DecidableEq

/-- Everything `gotSet` produces: the new instance state, the new session data,
the document store after ingestion, and whether not-found was reported. -/
structure GotSetResult where
  inner : InnerState
  data : DataSession
  store : DocStore
  outcome : FetchOutcome
  deriving Repr, DecidableEq

/-- `Inner::gotSet` (lines 248-329): parse the documents into the pack, build
the emoji index against the post-ingestion store, copy the wire set's metadata
into the `_set*` members; then, only when the registry already holds the id,
or the registry entry's client-only flag bits into the fresh flags and overwrite
that entry's flags, install date, stickers, emoji and thumbnail; finally report
not-found on an empty pack (leaving `_loaded` untouched) or complete the load. -/
def gotSet (st : InnerState) (ds : DataSession) (store : DocStore)
    (resp : WireResponse) : GotSetResult :=
  let pd := processDocuments store resp.documents
  let store1 := pd.1
  let pack := pd.2
  let emoji := buildEmoji store1 resp.packs
  let installDate := resp.set.installedDate.getD 0
  let found := setsFind ds.sets resp.set.id
  let flags1 :=
    match found with
    | some old => resp.set.flags ||| (old.flags &&& clientFlagsMask)
    | none => resp.set.flags
  let sets1 :=
    match found with
    | some _ =>
      setsUpdate ds.sets resp.set.id (fun e =>
        { e with flags := flags1, installDate := installDate,
                 stickers := pack, emoji := emoji, thumbnail := resp.set.thumb })
    | none => ds.sets
  let inner1 : InnerState :=
    { st with
      pack := pack, emoji := emoji,
      setTitle := resp.set.title, setShortName := resp.set.shortName,
      setId := resp.set.id, setAccess := resp.set.accessHash,
      setCount := resp.set.count, setHash := resp.set.hash,
      setFlags := flags1, setInstallDate := installDate,
      setThumbnail := resp.set.thumb,
      loadedFlag := if pack.isEmpty then st.loadedFlag else true }
  { inner := inner1,
    data := { ds with sets := sets1 },
    store := store1,
    outcome := if pack.isEmpty then FetchOutcome.notFound else FetchOutcome.ok }

/-- The two constructors of `MTPmessages_StickerSetInstallResult`. -/
inductive InstallResult
  | installed
  | archive
  deriving Repr, DecidableEq

/-- The persistence / notification calls dispatched at the end of
`installDone` (lines 394-402). -/
structure Persist where
  wroteArchived : Bool
  wroteInstalled : Bool
  appliedArchivedResult : Bool
  notified : Bool
  deriving Repr, DecidableEq

/-- Everything `installDone` produces. -/
structure InstallDoneResult where
  inner : InnerState
  data : DataSession
  persist : Persist
  deriving Repr, DecidableEq

/-- `Inner::installDone` (lines 339-404): drop the id from the archived order
when the set was archived; stamp the install date, clear the archived bit and
set the installed bit; upsert the registry entry and always overwrite its
stickers and emoji from the fetched pack; move the id to the front of the
install order; strip the fetched stickers out of the custom bucket, erasing it
when it empties; and dispatch persistence or the archived-result path. -/
def installDone (st : InnerState) (ds : DataSession) (now : Nat)
    (result : InstallResult) : InstallDoneResult :=
  let wasArchived := hasFlag st.setFlags flagArchived
  let archivedOrder1 :=
    if wasArchived then qRemoveOne ds.archivedOrder st.setId else ds.archivedOrder
  let flags1 := clearMask st.setFlags flagArchived ||| flagInstalledDate
  let sets1 :=
    match setsFind ds.sets st.setId with
    | none =>
      setsInsert ds.sets st.setId
        { id := st.setId, access := st.setAccess, title := st.setTitle,
          shortName := st.setShortName, count := st.setCount, hash := st.setHash,
          flags := flags1, installDate := now, thumbnail := st.setThumbnail,
          stickers := [], emoji := [] }
    | some _ =>
      setsUpdate ds.sets st.setId (fun e =>
        { e with flags := flags1, installDate := now })
  let sets2 := setsUpdate sets1 st.setId (fun e =>
    { e with stickers := st.pack, emoji := st.emoji })
  let order1 := updateOrder ds.order st.setId
  let sets3 :=
    match setsFind sets2 CustomSetId with
    | none => sets2
    | some custom =>
      let remaining := st.pack.foldl (fun acc s => qRemoveOne acc s) custom.stickers
      if remaining.isEmpty then setsErase sets2 CustomSetId
      else setsUpdate sets2 CustomSetId (fun e => { e with stickers := remaining })
  let persist1 :=
    match result with
    | InstallResult.archive =>
      { wroteArchived := false, wroteInstalled := false,
        appliedArchivedResult := true, notified := false }
    | InstallResult.installed =>
      { wroteArchived := wasArchived, wroteInstalled := true,
        appliedArchivedResult := false, notified := true }
  { inner := { st with setFlags := flags1, setInstallDate := now },
    data := { sets := sets3, order := order1, archivedOrder := archivedOrder1 },
    persist := persist1 }

/-- Repeated firings of the install completion: fold `installDone` over a list
of (timestamp, result) pairs. -/
def fireCompletions (st : InnerState) (ds : DataSession) :
    List (Nat × InstallResult) → InnerState × DataSession
  | [] => (st, ds)
  | f :: rest =>
    let o := installDone st ds f.1 f.2
    fireCompletions o.inner o.data rest

/-- The state of one orchestrator instance together with its observable
effects: transport install requests sent, and informational boxes shown. -/
structure SystemState where
  inner : InnerState
  data : DataSession
  sent : Nat
  shownMasks : Nat
  shownNotFound : Nat
  deriving Repr, DecidableEq

/-- `Inner::install` (lines 692-709): refuse with the masks box on a masks set;
silently return when `_installRequest` is already non-zero; otherwise send the
transport request and remember its (non-zero) id in `_installRequest`. -/
def installStep (s : SystemState) (freshId : Nat) : SystemState :=
  if hasFlag s.inner.setFlags flagMasks then
    { s with shownMasks := s.shownMasks + 1 }
  else if s.inner.installRequest ≠ 0 then s
  else
    { s with inner := { s.inner with installRequest := freshId },
             sent := s.sent + 1 }

/-- Delivery of the install request's done callback: run `installDone` on the
instance and session state; `_installRequest` is left untouched. -/
def installDoneStep (s : SystemState) (now : Nat) (r : InstallResult) : SystemState :=
  let o := installDone s.inner s.data now r
  { s with inner := o.inner, data := o.data }

/-- Delivery of the install request's fail callback (lines 706-708): only the
not-found box is shown; `_installRequest` is left untouched. -/
def installFailStep (s : SystemState) : SystemState :=
  { s with shownNotFound := s.shownNotFound + 1 }

/-- The events that can reach the orchestrator after construction. -/
inductive InstallEvent
  | call (freshId : Nat)
  | done (now : Nat) (r : InstallResult)
  | fail
  deriving Repr, DecidableEq

/-- Dispatch one event. -/
def installEventStep (s : SystemState) : InstallEvent → SystemState
  | InstallEvent.call f => installStep s f
  | InstallEvent.done now r => installDoneStep s now r
  | InstallEvent.fail => installFailStep s

/-- Run a sequence of events. -/
def runEvents (s : SystemState) (es : List InstallEvent) : SystemState :=
  es.foldl installEventStep s

/-- Specification-level description of the install-order update, following the
spec's words for claim C4: remove the id from the sequence when it sits at an
index other than 0 and reinsert it at index 0; leave the sequence alone when the
id is already first. -/
def specOrderUpdate (order : List Nat) (id : Nat) : List Nat :=
  if order.head? = some id then order else id :: order.erase id

/-- The residue of the custom bucket's sticker list after `installDone` removes
the fetched pack's stickers from it one by one. -/
def customRemaining (pack stickers : List Nat) : List Nat :=
  pack.foldl (fun acc s => acc.erase s) stickers

/-! ### Helper lemmas about the association-list maps -/

theorem setsFind_update_self (s : Sets) (k : Nat) (f : StickersSet → StickersSet) :
    setsFind (setsUpdate s k f) k = Option.map f (setsFind s k) := by
  induction s with
  | nil => rfl
  | cons p rest ih =>
    by_cases h : p.1 = k
    · simp [setsUpdate, setsFind, h]
    · simp [setsUpdate, setsFind, h] at ih ⊢
      exact ih

theorem setsFind_update_ne (s : Sets) (k k' : Nat) (f : StickersSet → StickersSet)
    (h : k' ≠ k) : setsFind (setsUpdate s k f) k' = setsFind s k' := by
  induction s with
  | nil => rfl
  | cons p rest ih =>
    by_cases hp : p.1 = k
    · simp [setsUpdate, setsFind, hp, Ne.symm h] at ih ⊢
      exact ih
    · by_cases hp' : p.1 = k'
      · simp [setsUpdate, setsFind, hp, hp', h]
      · simp [setsUpdate, setsFind, hp, hp'] at ih ⊢
        exact ih

theorem setsFind_append_single_ne (s : Sets) (k k' : Nat) (v : StickersSet)
    (h : k' ≠ k) : setsFind (s ++ [(k, v)]) k' = setsFind s k' := by
  induction s with
  | nil => simp [setsFind, Ne.symm h]
  | cons p rest ih =>
    by_cases hp : p.1 = k'
    · simp [setsFind, hp]
    · simp [setsFind, hp] at ih ⊢
      exact ih

theorem setsFind_insert_ne (s : Sets) (k k' : Nat) (v : StickersSet)
    (h : k' ≠ k) : setsFind (setsInsert s k v) k' = setsFind s k' := by
  unfold setsInsert
  cases hf : setsFind s k with
  | none => exact setsFind_append_single_ne s k k' v h
  | some w => exact setsFind_update_ne s k k' _ h

theorem setsFind_erase_self (s : Sets) (k : Nat) :
    setsFind (setsErase s k) k = none := by
  induction s with
  | nil => rfl
  | cons p rest ih =>
    by_cases hp : p.1 = k
    · simpa [setsErase, setsFind, hp] using ih
    · simpa [setsErase, setsFind, hp] using ih

/-! ### Helper lemmas about Qt index and removal -/

theorem qIndexOf_neg_iff (l : List Nat) (a : Nat) : qIndexOf l a < 0 ↔ a ∉ l := by
  induction l with
  | nil => simp [qIndexOf]
  | cons x xs ih =>
    by_cases hx : x = a
    · simp [qIndexOf, hx]
    · by_cases hr : qIndexOf xs a < 0
      · have hmem : a ∉ xs := ih.1 hr
        have he : qIndexOf (x :: xs) a = -1 := by simp [qIndexOf, hx, hr]
        rw [he]
        simp [List.mem_cons, not_or, hmem]
        exact fun h1 => hx h1.symm
      · have hmem : a ∈ xs := by
          by_contra hm
          exact hr (ih.2 hm)
        have he : qIndexOf (x :: xs) a = qIndexOf xs a + 1 := by simp [qIndexOf, hx, hr]
        have h0 : 0 ≤ qIndexOf xs a := le_of_not_lt hr
        rw [he]
        simp [List.mem_cons, hmem]
        omega

theorem qRemoveOne_eq_erase (l : List Nat) (a : Nat) : qRemoveOne l a = l.erase a := by
  induction l with
  | nil => rfl
  | cons x xs ih =>
    by_cases hx : x = a
    · subst hx
      simp [qRemoveOne, qIndexOf, List.eraseIdx]
    · rw [List.erase_cons_tail (by simpa using hx)]
      by_cases hr : qIndexOf xs a < 0
      · have hmem : a ∉ xs := (qIndexOf_neg_iff xs a).1 hr
        simp [qRemoveOne, qIndexOf, hx, hr, List.erase_of_not_mem hmem]
      · have h0 : 0 ≤ qIndexOf xs a := le_of_not_lt hr
        have he : qIndexOf (x :: xs) a = qIndexOf xs a + 1 := by simp [qIndexOf, hx, hr]
        have ht : (qIndexOf xs a + 1).toNat = (qIndexOf xs a).toNat + 1 := by omega
        have hxs : xs.eraseIdx (qIndexOf xs a).toNat = xs.erase a := by
          have := ih
          unfold qRemoveOne at this
          simpa [h0] using this
        simp [qRemoveOne, he, ht, List.eraseIdx]
        rw [if_pos (by omega), hxs]

theorem eraseIdx_qIndexOf (l : List Nat) (a : Nat) (h : 0 ≤ qIndexOf l a) :
    l.eraseIdx (qIndexOf l a).toNat = l.erase a := by
  have := qRemoveOne_eq_erase l a
  unfold qRemoveOne at this
  simpa [h] using this

theorem qIndexOf_eq_zero_head (l : List Nat) (a : Nat) (h : qIndexOf l a = 0) :
    l.head? = some a := by
  cases l with
  | nil => simp [qIndexOf] at h
  | cons x xs =>
    by_cases hx : x = a
    · simp [hx]
    · by_cases hr : qIndexOf xs a < 0
      · simp [qIndexOf, hx, hr] at h
      · have h0 : 0 ≤ qIndexOf xs a := le_of_not_lt hr
        simp [qIndexOf, hx, hr] at h
        omega

theorem head_ne_of_not_mem (l : List Nat) (a : Nat) (h : a ∉ l) : l.head? ≠ some a := by
  cases l with
  | nil => simp
  | cons x xs =>
    intro hx
    simp at hx
    exact h (by simp [hx])

theorem qIndexOf_pos_head (l : List Nat) (a : Nat) (h : 0 < qIndexOf l a) :
    l.head? ≠ some a := by
  cases l with
  | nil => simp
  | cons x xs =>
    by_cases hx : x = a
    · simp [qIndexOf, hx] at h
    · intro hc
      simp at hc
      exact hx hc

/-! ### The install-order update against its specification wording -/

theorem updateOrder_eq_spec (l : List Nat) (a : Nat) :
    updateOrder l a = specOrderUpdate l a := by
  unfold updateOrder specOrderUpdate
  by_cases h0 : qIndexOf l a = 0
  · have hh := qIndexOf_eq_zero_head l a h0
    simp [h0, hh]
  · by_cases hneg : qIndexOf l a < 0
    · have hmem : a ∉ l := (qIndexOf_neg_iff l a).1 hneg
      have hh := head_ne_of_not_mem l a hmem
      have hng : ¬ qIndexOf l a > 0 := by omega
      simp [h0, hh, hng, List.erase_of_not_mem hmem]
    · have hpos : 0 < qIndexOf l a := lt_of_le_of_ne (le_of_not_lt hneg) (Ne.symm h0)
      have hh := qIndexOf_pos_head l a hpos
      have he := eraseIdx_qIndexOf l a (le_of_lt hpos)
      simp [h0, hpos, hh, he]

theorem specOrderUpdate_head (l : List Nat) (a : Nat) :
    (specOrderUpdate l a).head? = some a := by
  unfold specOrderUpdate
  by_cases h : l.head? = some a
  · simp [h]
  · simp [h]

/-! ### Flag-bit lemmas -/

theorem testBit_clearMask (f m i : Nat) :
    (clearMask f m).testBit i = (f.testBit i && !(m.testBit i)) := by
  unfold clearMask
  rw [Nat.testBit_xor, Nat.testBit_and]
  cases hf : f.testBit i <;> cases hm : m.testBit i <;> rfl

theorem hasFlag_two_pow (f i : Nat) : hasFlag f (2 ^ i) = f.testBit i := by
  unfold hasFlag
  rw [Nat.and_two_pow]
  cases h : f.testBit i
  · simp
  · have hp : (2 : Nat) ^ i ≠ 0 := pow_ne_zero i (by omega)
    simp [hp]

theorem archived_bit_cleared (f : Nat) :
    hasFlag (clearMask f flagArchived ||| flagInstalledDate) flagArchived = false := by
  have h1 : flagArchived = 2 ^ 1 := rfl
  have h0 : flagInstalledDate = 2 ^ 0 := rfl
  rw [h1, h0, hasFlag_two_pow, Nat.testBit_or, testBit_clearMask]
  have e1 : ((2 : Nat) ^ 1).testBit 1 = true := by decide
  have e0 : ((2 : Nat) ^ 0).testBit 1 = false := by decide
  rw [e1, e0]
  cases h : f.testBit 1 <;> rfl

theorem installed_bit_set (f : Nat) :
    hasFlag (clearMask f flagArchived ||| flagInstalledDate) flagInstalledDate = true := by
  have h1 : flagArchived = 2 ^ 1 := rfl
  have h0 : flagInstalledDate = 2 ^ 0 := rfl
  rw [h1, h0, hasFlag_two_pow, Nat.testBit_or]
  have e0 : ((2 : Nat) ^ 0).testBit 0 = true := by decide
  rw [e0]
  cases h : (clearMask f (2 ^ 1)).testBit 0 <;> rfl

/-! ### Parser lemmas -/

theorem processDocuments_snd_aux (docs : List WireDoc) (store : DocStore) (acc : List Nat) :
    (docs.foldl
      (fun acc d =>
        let store2 := storeInsert acc.1 d.id d.isSticker
        if d.isSticker then (store2, acc.2 ++ [d.id]) else (store2, acc.2))
      (store, acc)).2
      = acc ++ (docs.filter (fun d => d.isSticker)).map (fun d => d.id) := by
  induction docs generalizing store acc with
  | nil => simp
  | cons d rest ih =>
    cases hd : d.isSticker
    · simpa [List.foldl_cons, hd] using ih (storeInsert store d.id d.isSticker) acc
    · simpa [List.foldl_cons, hd] using
        ih (storeInsert store d.id d.isSticker) (acc ++ [d.id])

theorem processDocuments_snd (store : DocStore) (docs : List WireDoc) :
    (processDocuments store docs).2
      = (docs.filter (fun d => d.isSticker)).map (fun d => d.id) := by
  simpa using processDocuments_snd_aux docs store []

theorem resolvePack_resolved (store : DocStore) (ids : List Nat) :
    ∀ d ∈ resolvePack store ids, storeLookup store d = some true := by
  intro d hd
  unfold resolvePack at hd
  have hp := List.of_mem_filter hd
  cases h : storeLookup store d with
  | none => simp [h] at hp
  | some b =>
    cases b
    · simp [h] at hp
    · rfl

theorem mapInsert_values (m : EmojiMap) (k : String) (v : List Nat)
    (Q : List Nat → Prop) (hm : ∀ pr ∈ m, Q pr.2) (hv : Q v) :
    ∀ pr ∈ mapInsert m k v, Q pr.2 := by
  intro pr hpr
  unfold mapInsert at hpr
  cases hl : m.lookup k with
  | some w =>
    rw [hl] at hpr
    rcases List.mem_map.1 hpr with ⟨q, hq, he⟩
    by_cases hk : q.1 = k
    · rw [if_pos hk] at he
      rw [← he]
      exact hv
    · rw [if_neg hk] at he
      rw [← he]
      exact hm q hq
  | none =>
    rw [hl] at hpr
    rcases List.mem_append.1 hpr with h1 | h2
    · exact hm pr h1
    · rw [List.mem_singleton.1 h2]
      exact hv

theorem buildEmoji_resolved (store : DocStore) (packs : List WirePack) :
    ∀ pr ∈ buildEmoji store packs, ∀ d ∈ pr.2, storeLookup store d = some true := by
  suffices h : ∀ (packs2 : List WirePack) (m : EmojiMap),
      (∀ pr ∈ m, ∀ d ∈ pr.2, storeLookup store d = some true) →
      ∀ pr ∈ packs2.foldl
        (fun m p =>
          match p.emojiOriginal with
          | some o => mapInsert m o (resolvePack store p.documents)
          | none => m) m,
        ∀ d ∈ pr.2, storeLookup store d = some true by
    intro pr hpr
    unfold buildEmoji at hpr
    exact h packs [] (by simp) pr hpr
  intro packs2
  induction packs2 with
  | nil => intro m hm pr hpr; exact hm pr hpr
  | cons p rest ih =>
    intro m hm pr hpr
    rw [List.foldl_cons] at hpr
    cases ho : p.emojiOriginal with
    | none =>
      rw [ho] at hpr
      exact ih m hm pr hpr
    | some o =>
      rw [ho] at hpr
      refine ih (mapInsert m o (resolvePack store p.documents)) ?_ pr hpr
      exact mapInsert_values m o (resolvePack store p.documents)
        (fun v => ∀ d ∈ v, storeLookup store d = some true) hm
        (resolvePack_resolved store p.documents)

/-! ### Custom-bucket fold lemmas -/

theorem foldl_qRemoveOne_eq (pack l : List Nat) :
    pack.foldl (fun acc s => qRemoveOne acc s) l = customRemaining pack l := by
  induction pack generalizing l with
  | nil => rfl
  | cons x rest ih =>
    show rest.foldl (fun acc s => qRemoveOne acc s) (qRemoveOne l x)
        = customRemaining rest (l.erase x)
    rw [qRemoveOne_eq_erase]
    exact ih (l.erase x)

theorem not_mem_customRemaining (pack l : List Nat) (a : Nat) (h : a ∉ l) :
    a ∉ customRemaining pack l := by
  induction pack generalizing l with
  | nil => exact h
  | cons s rest ih =>
    exact ih (l.erase s) (fun hm => h (List.mem_of_mem_erase hm))

theorem customRemaining_removes (pack l : List Nat) (hnd : l.Nodup) :
    ∀ s ∈ pack, s ∉ customRemaining pack l := by
  induction pack generalizing l with
  | nil => simp
  | cons x rest ih =>
    intro s hs
    rcases List.mem_cons.1 hs with h1 | h2
    · subst h1
      exact not_mem_customRemaining rest (l.erase s) s hnd.not_mem_erase
    · exact ih (l.erase x) (hnd.erase x) s h2

/-! ### Projection lemmas for installDone -/

theorem installDone_data_order (st : InnerState) (ds : DataSession) (now : Nat)
    (r : InstallResult) :
    (installDone st ds now r).data.order = updateOrder ds.order st.setId := rfl

theorem installDone_inner_setFlags (st : InnerState) (ds : DataSession) (now : Nat)
    (r : InstallResult) :
    (installDone st ds now r).inner.setFlags
      = (clearMask st.setFlags flagArchived ||| flagInstalledDate) := rfl

theorem installDone_inner_setInstallDate (st : InnerState) (ds : DataSession) (now : Nat)
    (r : InstallResult) :
    (installDone st ds now r).inner.setInstallDate = now := rfl

theorem installDone_inner_installRequest (st : InnerState) (ds : DataSession) (now : Nat)
    (r : InstallResult) :
    (installDone st ds now r).inner.installRequest = st.installRequest := rfl

theorem installDone_data_archivedOrder (st : InnerState) (ds : DataSession) (now : Nat)
    (r : InstallResult) :
    (installDone st ds now r).data.archivedOrder
      = (if hasFlag st.setFlags flagArchived
         then qRemoveOne ds.archivedOrder st.setId else ds.archivedOrder) := rfl

theorem installDone_archived_flag_false (st : InnerState) (ds : DataSession) (now : Nat)
    (r : InstallResult) :
    hasFlag (installDone st ds now r).inner.setFlags flagArchived = false := by
  rw [installDone_inner_setFlags]
  exact archived_bit_cleared st.setFlags

theorem installDone_archivedOrder_of_not_archived (st : InnerState) (ds : DataSession)
    (now : Nat) (r : InstallResult) (h : hasFlag st.setFlags flagArchived = false) :
    (installDone st ds now r).data.archivedOrder = ds.archivedOrder := by
  rw [installDone_data_archivedOrder, h]
  rfl

theorem fireCompletions_archivedOrder (fires : List (Nat × InstallResult))
    (st : InnerState) (ds : DataSession)
    (h : hasFlag st.setFlags flagArchived = false) :
    (fireCompletions st ds fires).2.archivedOrder = ds.archivedOrder := by
  induction fires generalizing st ds with
  | nil => rfl
  | cons f rest ih =>
    show (fireCompletions (installDone st ds f.1 f.2).inner
        (installDone st ds f.1 f.2).data rest).2.archivedOrder = ds.archivedOrder
    rw [ih _ _ (installDone_archived_flag_false st ds f.1 f.2)]
    exact installDone_archivedOrder_of_not_archived st ds f.1 f.2 h

/-! ### Projection lemmas for gotSet -/

theorem gotSet_inner_pack (st : InnerState) (ds : DataSession) (store : DocStore)
    (resp : WireResponse) :
    (gotSet st ds store resp).inner.pack = (processDocuments store resp.documents).2 := rfl

theorem gotSet_inner_emoji (st : InnerState) (ds : DataSession) (store : DocStore)
    (resp : WireResponse) :
    (gotSet st ds store resp).inner.emoji
      = buildEmoji (processDocuments store resp.documents).1 resp.packs := rfl

theorem gotSet_store (st : InnerState) (ds : DataSession) (store : DocStore)
    (resp : WireResponse) :
    (gotSet st ds store resp).store = (processDocuments store resp.documents).1 := rfl

theorem gotSet_outcome (st : InnerState) (ds : DataSession) (store : DocStore)
    (resp : WireResponse) :
    (gotSet st ds store resp).outcome
      = (if (processDocuments store resp.documents).2.isEmpty
         then FetchOutcome.notFound else FetchOutcome.ok) := rfl

theorem gotSet_inner_loadedFlag (st : InnerState) (ds : DataSession) (store : DocStore)
    (resp : WireResponse) :
    (gotSet st ds store resp).inner.loadedFlag
      = (if (processDocuments store resp.documents).2.isEmpty
         then st.loadedFlag else true) := rfl

theorem gotSet_data_sets_found (st : InnerState) (ds : DataSession) (store : DocStore)
    (resp : WireResponse) (old : StickersSet)
    (h : setsFind ds.sets resp.set.id = some old) :
    (gotSet st ds store resp).data.sets
      = setsUpdate ds.sets resp.set.id (fun e =>
          { e with
            flags := resp.set.flags ||| (old.flags &&& clientFlagsMask),
            installDate := resp.set.installedDate.getD 0,
            stickers := (processDocuments store resp.documents).2,
            emoji := buildEmoji (processDocuments store resp.documents).1 resp.packs,
            thumbnail := resp.set.thumb }) := by
  unfold gotSet
  rw [h]

theorem gotSet_data_sets_none (st : InnerState) (ds : DataSession) (store : DocStore)
    (resp : WireResponse) (h : setsFind ds.sets resp.set.id = none) :
    (gotSet st ds store resp).data.sets = ds.sets := by
  unfold gotSet
  rw [h]

/-! ### The custom bucket after installDone -/

theorem installDone_sets_custom (st : InnerState) (ds : DataSession) (now : Nat)
    (r : InstallResult) (custom : StickersSet)
    (hne : st.setId ≠ CustomSetId)
    (hc : setsFind ds.sets CustomSetId = some custom) :
    setsFind (installDone st ds now r).data.sets CustomSetId
      = (if (customRemaining st.pack custom.stickers).isEmpty then none
         else some { custom with stickers := customRemaining st.pack custom.stickers }) := by
  have hCne : CustomSetId ≠ st.setId := Ne.symm hne
  unfold installDone
  cases hf : setsFind ds.sets st.setId with
  | none =>
    simp only [hf]
    have h2 : setsFind
        (setsUpdate
          (setsInsert ds.sets st.setId
            { id := st.setId, access := st.setAccess, title := st.setTitle,
              shortName := st.setShortName, count := st.setCount, hash := st.setHash,
              flags := clearMask st.setFlags flagArchived ||| flagInstalledDate,
              installDate := now, thumbnail := st.setThumbnail,
              stickers := [], emoji := [] })
          st.setId (fun e => { e with stickers := st.pack, emoji := st.emoji }))
        CustomSetId = some custom := by
      rw [setsFind_update_ne _ _ _ _ hCne, setsFind_insert_ne _ _ _ _ hCne]
      exact hc
    rw [h2]
    dsimp only
    rw [foldl_qRemoveOne_eq]
    by_cases he : (customRemaining st.pack custom.stickers).isEmpty
    · simp only [he, if_true]
      exact setsFind_erase_self _ CustomSetId
    · simp only [he, if_false, Bool.false_eq_true]
      rw [setsFind_update_self, h2]
      rfl
  | some w =>
    simp only [hf]
    have h2 : setsFind
        (setsUpdate
          (setsUpdate ds.sets st.setId (fun e =>
            { e with flags := clearMask st.setFlags flagArchived ||| flagInstalledDate,
                     installDate := now }))
          st.setId (fun e => { e with stickers := st.pack, emoji := st.emoji }))
        CustomSetId = some custom := by
      rw [setsFind_update_ne _ _ _ _ hCne, setsFind_update_ne _ _ _ _ hCne]
      exact hc
    rw [h2]
    dsimp only
    rw [foldl_qRemoveOne_eq]
    by_cases he : (customRemaining st.pack custom.stickers).isEmpty
    · simp only [he, if_true]
      exact setsFind_erase_self _ CustomSetId
    · simp only [he, if_false, Bool.false_eq_true]
      rw [setsFind_update_self, h2]
      rfl

/-! ### Sample values used by the concrete witnesses -/

/-- A registry entry with two client-only bits and the archived bit set. -/
def sampleOld : StickersSet :=
  { id := 7, access := 11, title := "Old", shortName := "old", count := 1, hash := 5,
    flags := flagFeatured ||| flagUnread ||| flagArchived,
    installDate := 100, thumbnail := some 3,
    stickers := [1], emoji := [] }

/-- A fetch response for set 7 whose flag word carries no client-only bits. -/
def sampleResp : WireResponse :=
  { set := { id := 7, accessHash := 11, title := "New", shortName := "new", count := 2,
             hash := 6, flags := flagOfficial, installedDate := some 200, thumb := some 4 },
    documents := [{ id := 1, isSticker := true }, { id := 2, isSticker := true },
                  { id := 3, isSticker := false }],
    packs := [{ emojiOriginal := some "smile", documents := [1, 9] }] }

/-- The spec's own example: registry empty, fetch returns set 7 with two
stickers and an empty flag word. -/
def respC2 : WireResponse :=
  { set := { id := 7, accessHash := 0, title := "", shortName := "", count := 2,
             hash := 0, flags := 0, installedDate := none, thumb := none },
    documents := [{ id := 1, isSticker := true }, { id := 2, isSticker := true }],
    packs := [] }

/-! ### Claims -/

/-- Claim C1: for every fetched sticker-set whose id is already in the registry,
`gotSet` preserves the previously-set client-only flag bits (featured,
notLoaded, unread, special) by or-ing them into the freshly parsed flags before
overwriting the entry's flags, and replaces the entry's stickers, emoji and
thumbnail with the freshly parsed ones, even when the new payload's flag word
omits those client-only bits. -/
theorem gotSet_found_preserves_client_flags (st : InnerState) (ds : DataSession)
    (store : DocStore) (resp : WireResponse) (old : StickersSet)
    (hfound : setsFind ds.sets resp.set.id = some old) :
    ∃ e, setsFind (gotSet st ds store resp).data.sets resp.set.id = some e ∧
      e.flags = (resp.set.flags ||| (old.flags &&& clientFlagsMask)) ∧
      e.stickers = (processDocuments store resp.documents).2 ∧
      e.emoji = buildEmoji (processDocuments store resp.documents).1 resp.packs ∧
      e.thumbnail = resp.set.thumb ∧
      (∀ i, (i = 28 ∨ i = 29 ∨ i = 30 ∨ i = 31) →
        old.flags.testBit i = true → e.flags.testBit i = true) := by
  rw [gotSet_data_sets_found st ds store resp old hfound]
  rw [setsFind_update_self, hfound]
  refine ⟨_, rfl, rfl, rfl, rfl, rfl, ?_⟩
  intro i hi hb
  have hm28 : clientFlagsMask.testBit 28 = true := by decide
  have hm29 : clientFlagsMask.testBit 29 = true := by decide
  have hm30 : clientFlagsMask.testBit 30 = true := by decide
  have hm31 : clientFlagsMask.testBit 31 = true := by decide
  rcases hi with h | h | h | h <;> subst h <;>
    simp [Nat.testBit_or, Nat.testBit_and, hb, hm28, hm29, hm30, hm31]

/-- Claim C1 witness: the theorem applied to a concrete registry holding set 7
with featured and unread client bits, and a fetch whose flags omit them. -/
theorem gotSet_found_preserves_client_flags_witness :
    setsFind [(7, sampleOld)] sampleResp.set.id = some sampleOld ∧
    (∃ e, setsFind (gotSet (initialInner 7 11 "") ⟨[(7, sampleOld)], [], []⟩ []
          sampleResp).data.sets sampleResp.set.id = some e ∧
      e.flags = (sampleResp.set.flags ||| (sampleOld.flags &&& clientFlagsMask)) ∧
      e.stickers = (processDocuments [] sampleResp.documents).2 ∧
      e.emoji = buildEmoji (processDocuments [] sampleResp.documents).1 sampleResp.packs ∧
      e.thumbnail = sampleResp.set.thumb ∧
      (∀ i, (i = 28 ∨ i = 29 ∨ i = 30 ∨ i = 31) →
        sampleOld.flags.testBit i = true → e.flags.testBit i = true)) :=
  ⟨rfl, gotSet_found_preserves_client_flags (initialInner 7 11 "")
    ⟨[(7, sampleOld)], [], []⟩ [] sampleResp sampleOld rfl⟩

/-- Claim C2 counterexample: on the spec's own example (empty registry, fetch
returns set 7 with stickers 1 and 2 and an empty flag word), the fetch parses
successfully, yet `gotSet` leaves the registry empty: no entry for id 7 is
inserted, contradicting the claim that the set is inserted on fetch
completion. -/
theorem gotSet_absent_no_insert_cex :
    (gotSet (initialInner 7 0 "") emptyData [] respC2).inner.pack = [1, 2] ∧
    (gotSet (initialInner 7 0 "") emptyData [] respC2).outcome = FetchOutcome.ok ∧
    (gotSet (initialInner 7 0 "") emptyData [] respC2).data.sets = [] ∧
    setsFind (gotSet (initialInner 7 0 "") emptyData [] respC2).data.sets 7 = none :=
  ⟨rfl, rfl, rfl, rfl⟩

/-- Claim C2 (amended): for every fetched sticker-set whose id is absent from
the registry, `gotSet` leaves the registry unchanged — no entry is inserted;
the freshly parsed pack and the flags the fetch reported are retained only in
the dialog's local state (a registry entry appears only later, on install
completion). -/
theorem gotSet_absent_registry_unchanged (st : InnerState) (ds : DataSession)
    (store : DocStore) (resp : WireResponse)
    (h : setsFind ds.sets resp.set.id = none) :
    (gotSet st ds store resp).data.sets = ds.sets ∧
    (gotSet st ds store resp).inner.setFlags = resp.set.flags ∧
    (gotSet st ds store resp).inner.pack
      = (resp.documents.filter (fun d => d.isSticker)).map (fun d => d.id) := by
  refine ⟨gotSet_data_sets_none st ds store resp h, ?_, ?_⟩
  · unfold gotSet
    rw [h]
  · rw [gotSet_inner_pack, processDocuments_snd]

/-- Claim C2 witness: the amended theorem applied to the empty registry and the
spec's example response. -/
theorem gotSet_absent_registry_unchanged_witness :
    setsFind emptyData.sets respC2.set.id = none ∧
    ((gotSet (initialInner 7 0 "") emptyData [] respC2).data.sets = emptyData.sets ∧
     (gotSet (initialInner 7 0 "") emptyData [] respC2).inner.setFlags = respC2.set.flags ∧
     (gotSet (initialInner 7 0 "") emptyData [] respC2).inner.pack
       = (respC2.documents.filter (fun d => d.isSticker)).map (fun d => d.id)) :=
  ⟨rfl, gotSet_absent_registry_unchanged (initialInner 7 0 "") emptyData [] respC2 rfl⟩

/-- An instance state whose set carries the archived flag. -/
def archivedInner : InnerState :=
  { initialInner 7 11 "s" with setFlags := flagArchived }

/-- A session whose archived order holds set 7. -/
def archivedData : DataSession :=
  { sets := [(7, sampleOld)], order := [9], archivedOrder := [7, 9] }

/-- Claim C3: on install completion for a previously archived set, the set's id
is removed from the archived-order sequence, the removal being a no-op (not an
error) when the id is absent; the removal happens exactly once no matter how
many further install completions fire (the archived flag is cleared by the
first completion, so later ones leave the archived order alone); additionally
the archived flag is cleared, the installed flag is set and the install date is
set to the current time. -/
theorem installDone_archived_removal_and_flags (st : InnerState) (ds : DataSession)
    (now : Nat) (r : InstallResult)
    (h : hasFlag st.setFlags flagArchived = true) :
    (installDone st ds now r).data.archivedOrder = ds.archivedOrder.erase st.setId ∧
    (st.setId ∉ ds.archivedOrder →
      (installDone st ds now r).data.archivedOrder = ds.archivedOrder) ∧
    hasFlag (installDone st ds now r).inner.setFlags flagArchived = false ∧
    hasFlag (installDone st ds now r).inner.setFlags flagInstalledDate = true ∧
    (installDone st ds now r).inner.setInstallDate = now ∧
    (∀ fires, (fireCompletions (installDone st ds now r).inner
        (installDone st ds now r).data fires).2.archivedOrder
      = (installDone st ds now r).data.archivedOrder) := by
  have h1 : (installDone st ds now r).data.archivedOrder
      = ds.archivedOrder.erase st.setId := by
    rw [installDone_data_archivedOrder, h, if_pos rfl, qRemoveOne_eq_erase]
  refine ⟨h1, ?_, installDone_archived_flag_false st ds now r, ?_, rfl, ?_⟩
  · intro hm
    rw [h1, List.erase_of_not_mem hm]
  · rw [installDone_inner_setFlags]
    exact installed_bit_set st.setFlags
  · intro fires
    exact fireCompletions_archivedOrder fires _ _
      (installDone_archived_flag_false st ds now r)

/-- Claim C3 witness: the theorem applied to a concrete archived set 7 whose id
sits in the archived order. -/
theorem installDone_archived_removal_and_flags_witness :
    hasFlag archivedInner.setFlags flagArchived = true ∧
    ((installDone archivedInner archivedData 555 InstallResult.installed).data.archivedOrder
        = archivedData.archivedOrder.erase archivedInner.setId ∧
     (archivedInner.setId ∉ archivedData.archivedOrder →
       (installDone archivedInner archivedData 555
           InstallResult.installed).data.archivedOrder = archivedData.archivedOrder) ∧
     hasFlag (installDone archivedInner archivedData 555
         InstallResult.installed).inner.setFlags flagArchived = false ∧
     hasFlag (installDone archivedInner archivedData 555
         InstallResult.installed).inner.setFlags flagInstalledDate = true ∧
     (installDone archivedInner archivedData 555
         InstallResult.installed).inner.setInstallDate = 555 ∧
     (∀ fires, (fireCompletions (installDone archivedInner archivedData 555
           InstallResult.installed).inner
         (installDone archivedInner archivedData 555
           InstallResult.installed).data fires).2.archivedOrder
       = (installDone archivedInner archivedData 555
           InstallResult.installed).data.archivedOrder)) :=
  ⟨by decide, installDone_archived_removal_and_flags archivedInner archivedData 555
    InstallResult.installed (by decide)⟩

/-- Claim C4: on every install completion for set X, the install-order sequence
is updated so that X's id ends at position 0: if present at an index other than
0 it is removed from that index and reinserted at index 0; if already at index
0 the sequence is unchanged; if absent it is inserted at index 0. The code's
update agrees with the spec-worded `specOrderUpdate` on every input, and the
head of the resulting order is always X's id. -/
theorem installDone_order_front (st : InnerState) (ds : DataSession) (now : Nat)
    (r : InstallResult) :
    (installDone st ds now r).data.order = specOrderUpdate ds.order st.setId ∧
    ((installDone st ds now r).data.order).head? = some st.setId := by
  rw [installDone_data_order, updateOrder_eq_spec]
  exact ⟨rfl, specOrderUpdate_head ds.order st.setId⟩

/-- An instance state whose fetched pack holds stickers 1 and 2. -/
def customInner : InnerState :=
  { initialInner 7 11 "s" with pack := [1, 2] }

/-- The synthetic recently-used bucket, holding stickers 2 and 5. -/
def customBucket : StickersSet :=
  { sampleOld with id := CustomSetId, stickers := [2, 5] }

/-- A session whose registry holds only the custom bucket. -/
def customData : DataSession :=
  { sets := [(CustomSetId, customBucket)], order := [], archivedOrder := [] }

/-- Claim C5: on every install completion, each sticker of the newly installed
pack that is present in the custom bucket's sticker list is removed from that
list (one occurrence per pack sticker, so with a duplicate-free bucket every
pack sticker disappears from it), and if the bucket's sticker list becomes
empty the custom entry is deleted from the registry entirely. -/
theorem installDone_custom_bucket_cleanup (st : InnerState) (ds : DataSession)
    (now : Nat) (r : InstallResult) (custom : StickersSet)
    (hne : st.setId ≠ CustomSetId)
    (hc : setsFind ds.sets CustomSetId = some custom) :
    (customRemaining st.pack custom.stickers = [] →
      setsFind (installDone st ds now r).data.sets CustomSetId = none) ∧
    (customRemaining st.pack custom.stickers ≠ [] →
      setsFind (installDone st ds now r).data.sets CustomSetId
        = some { custom with stickers := customRemaining st.pack custom.stickers }) ∧
    (custom.stickers.Nodup →
      ∀ s ∈ st.pack, s ∉ customRemaining st.pack custom.stickers) := by
  have h1 := installDone_sets_custom st ds now r custom hne hc
  refine ⟨?_, ?_, fun hnd => customRemaining_removes st.pack custom.stickers hnd⟩
  · intro he
    have hb : (customRemaining st.pack custom.stickers).isEmpty = true := by
      simp [List.isEmpty_iff, he]
    rw [h1, if_pos hb]
  · intro he
    have hb : ¬ ((customRemaining st.pack custom.stickers).isEmpty = true) := by
      simp [List.isEmpty_iff]
      exact he
    rw [h1, if_neg hb]

/-- Claim C5 witness: installing a pack holding stickers 1 and 2 against a
custom bucket holding 2 and 5 leaves the bucket with sticker 5 only. -/
theorem installDone_custom_bucket_cleanup_witness :
    customInner.setId ≠ CustomSetId ∧
    setsFind customData.sets CustomSetId = some customBucket ∧
    ((customRemaining customInner.pack customBucket.stickers = [] →
      setsFind (installDone customInner customData 555
          InstallResult.installed).data.sets CustomSetId = none) ∧
     (customRemaining customInner.pack customBucket.stickers ≠ [] →
      setsFind (installDone customInner customData 555
          InstallResult.installed).data.sets CustomSetId
        = some { customBucket with
            stickers := customRemaining customInner.pack customBucket.stickers }) ∧
     (customBucket.stickers.Nodup →
      ∀ s ∈ customInner.pack,
        s ∉ customRemaining customInner.pack customBucket.stickers)) :=
  ⟨by decide, rfl, installDone_custom_bucket_cleanup customInner customData 555
    InstallResult.installed customBucket (by decide) rfl⟩

/-- An orchestrator with a non-masks set, no request in flight yet. -/
def sysReady : SystemState :=
  { inner := initialInner 7 11 "s", data := emptyData,
    sent := 0, shownMasks := 0, shownNotFound := 0 }

/-- An orchestrator whose set carries the masks flag. -/
def sysMasks : SystemState :=
  { inner := { initialInner 7 11 "s" with setFlags := flagMasks }, data := emptyData,
    sent := 0, shownMasks := 0, shownNotFound := 0 }

/-- An orchestrator with a request already in flight (id 5, one request sent). -/
def sysInFlight : SystemState :=
  { inner := { initialInner 7 11 "s" with installRequest := 5 }, data := emptyData,
    sent := 1, shownMasks := 0, shownNotFound := 0 }

/-- Claim C6: while an install request is already in flight, a further call to
`install` is a silent no-op that issues no transport request; calling it twice
before the first callback fires results in exactly one outstanding transport
request. -/
theorem install_second_call_noop (s : SystemState) (f1 f2 : Nat)
    (hm : hasFlag s.inner.setFlags flagMasks = false)
    (h0 : s.inner.installRequest = 0)
    (hf : f1 ≠ 0) :
    (installStep s f1).sent = s.sent + 1 ∧
    installStep (installStep s f1) f2 = installStep s f1 := by
  have e1 : installStep s f1
      = { s with inner := { s.inner with installRequest := f1 }, sent := s.sent + 1 } := by
    unfold installStep
    simp [hm, h0]
  constructor
  · rw [e1]
  · rw [e1]
    unfold installStep
    simp [hm, hf]

/-- Claim C6 witness: two calls on a fresh orchestrator for a non-masks set. -/
theorem install_second_call_noop_witness :
    hasFlag sysReady.inner.setFlags flagMasks = false ∧
    sysReady.inner.installRequest = 0 ∧
    (1 : Nat) ≠ 0 ∧
    ((installStep sysReady 1).sent = sysReady.sent + 1 ∧
     installStep (installStep sysReady 1) 2 = installStep sysReady 1) :=
  ⟨by decide, rfl, by decide,
    install_second_call_noop sysReady 1 2 (by decide) rfl (by decide)⟩

/-- Claim C7: for a set carrying the masks flag, `install` performs no install
request and mutates no instance or registry state; it only shows the distinct
masks-not-installable informational box. -/
theorem install_masks_refused (s : SystemState) (f : Nat)
    (hm : hasFlag s.inner.setFlags flagMasks = true) :
    installStep s f = { s with shownMasks := s.shownMasks + 1 } ∧
    (installStep s f).sent = s.sent ∧
    (installStep s f).inner = s.inner ∧
    (installStep s f).data = s.data ∧
    (installStep s f).shownMasks = s.shownMasks + 1 := by
  have e : installStep s f = { s with shownMasks := s.shownMasks + 1 } := by
    unfold installStep
    simp [hm]
  rw [e]
  exact ⟨rfl, rfl, rfl, rfl, rfl⟩

/-- Claim C7 witness: the theorem applied to a masks-set orchestrator. -/
theorem install_masks_refused_witness :
    hasFlag sysMasks.inner.setFlags flagMasks = true ∧
    (installStep sysMasks 1 = { sysMasks with shownMasks := sysMasks.shownMasks + 1 } ∧
     (installStep sysMasks 1).sent = sysMasks.sent ∧
     (installStep sysMasks 1).inner = sysMasks.inner ∧
     (installStep sysMasks 1).data = sysMasks.data ∧
     (installStep sysMasks 1).shownMasks = sysMasks.shownMasks + 1) :=
  ⟨by decide, install_masks_refused sysMasks 1 (by decide)⟩

/-- Claim C9: once `_installRequest` is non-zero it is never reset — no later
event (further install calls, done callbacks, fail callbacks) changes it, and
no further transport request is ever sent by this instance, so a failed install
cannot be retried through this dialog. -/
theorem install_request_never_reset (s : SystemState) (es : List InstallEvent)
    (h : s.inner.installRequest ≠ 0) :
    (runEvents s es).inner.installRequest = s.inner.installRequest ∧
    (runEvents s es).sent = s.sent := by
  induction es generalizing s with
  | nil => exact ⟨rfl, rfl⟩
  | cons e rest ih =>
    have step1 : (installEventStep s e).inner.installRequest = s.inner.installRequest ∧
        (installEventStep s e).sent = s.sent := by
      cases e with
      | call f =>
        show (installStep s f).inner.installRequest = _ ∧ (installStep s f).sent = _
        unfold installStep
        by_cases hm : hasFlag s.inner.setFlags flagMasks
        · simp [hm]
        · simp [hm, h]
      | done now r =>
        exact ⟨installDone_inner_installRequest s.inner s.data now r, rfl⟩
      | fail => exact ⟨rfl, rfl⟩
    have h2 : (installEventStep s e).inner.installRequest ≠ 0 := by
      rw [step1.1]
      exact h
    have hr := ih (installEventStep s e) h2
    exact ⟨hr.1.trans step1.1, hr.2.trans step1.2⟩

/-- Claim C9 witness: with request 5 in flight, a later call, a completion, a
failure and another call leave the request id and the sent count unchanged. -/
theorem install_request_never_reset_witness :
    sysInFlight.inner.installRequest ≠ 0 ∧
    ((runEvents sysInFlight
        [InstallEvent.call 9, InstallEvent.done 50 InstallResult.installed,
         InstallEvent.fail, InstallEvent.call 4]).inner.installRequest
      = sysInFlight.inner.installRequest ∧
     (runEvents sysInFlight
        [InstallEvent.call 9, InstallEvent.done 50 InstallResult.installed,
         InstallEvent.fail, InstallEvent.call 4]).sent = sysInFlight.sent) :=
  ⟨by decide, install_request_never_reset sysInFlight
    [InstallEvent.call 9, InstallEvent.done 50 InstallResult.installed,
     InstallEvent.fail, InstallEvent.call 4] (by decide)⟩

/-- A fetch response none of whose documents carries sticker metadata. -/
def respEmpty : WireResponse :=
  { set := { id := 7, accessHash := 0, title := "", shortName := "", count := 1,
             hash := 0, flags := 0, installedDate := none, thumb := none },
    documents := [{ id := 1, isSticker := false }],
    packs := [{ emojiOriginal := some "smile", documents := [1, 9] }] }

/-- Claim C8: the parser keeps exactly the response entries carrying sticker
metadata (skipping the rest); when the resulting pack is empty the handler
reports not-found and stops before completing the load; and every document
reference kept in the emoji map resolves, in the post-ingestion store, to a
known sticker document (unresolvable references are silently dropped, not
errors). -/
theorem gotSet_empty_pack_not_found (st : InnerState) (ds : DataSession)
    (store : DocStore) (resp : WireResponse) :
    (gotSet st ds store resp).inner.pack
      = (resp.documents.filter (fun d => d.isSticker)).map (fun d => d.id) ∧
    ((gotSet st ds store resp).inner.pack = [] →
      (gotSet st ds store resp).outcome = FetchOutcome.notFound ∧
      (gotSet st ds store resp).inner.loadedFlag = st.loadedFlag) ∧
    ((gotSet st ds store resp).inner.pack ≠ [] →
      (gotSet st ds store resp).outcome = FetchOutcome.ok) ∧
    (∀ pr ∈ (gotSet st ds store resp).inner.emoji, ∀ d ∈ pr.2,
      storeLookup (gotSet st ds store resp).store d = some true) := by
  have hpk : (gotSet st ds store resp).inner.pack
      = (processDocuments store resp.documents).2 := gotSet_inner_pack st ds store resp
  refine ⟨?_, ?_, ?_, ?_⟩
  · rw [hpk, processDocuments_snd]
  · intro he
    have hb : (processDocuments store resp.documents).2.isEmpty = true := by
      simp [List.isEmpty_iff, hpk.symm.trans he]
    constructor
    · rw [gotSet_outcome, if_pos hb]
    · rw [gotSet_inner_loadedFlag, if_pos hb]
  · intro he
    have hb : ¬ ((processDocuments store resp.documents).2.isEmpty = true) := by
      simp [List.isEmpty_iff]
      intro hc
      exact he (hpk.trans hc)
    rw [gotSet_outcome, if_neg hb]
  · rw [gotSet_inner_emoji, gotSet_store]
    exact buildEmoji_resolved (processDocuments store resp.documents).1 resp.packs

/-- Claim C8 witness: the theorem applied to a response whose only document
lacks sticker metadata and whose emoji pack references unknown documents. -/
theorem gotSet_empty_pack_not_found_witness :
    (gotSet (initialInner 7 0 "") emptyData [] respEmpty).inner.pack
      = (respEmpty.documents.filter (fun d => d.isSticker)).map (fun d => d.id) ∧
    ((gotSet (initialInner 7 0 "") emptyData [] respEmpty).inner.pack = [] →
      (gotSet (initialInner 7 0 "") emptyData [] respEmpty).outcome
          = FetchOutcome.notFound ∧
      (gotSet (initialInner 7 0 "") emptyData [] respEmpty).inner.loadedFlag
          = (initialInner 7 0 "").loadedFlag) ∧
    ((gotSet (initialInner 7 0 "") emptyData [] respEmpty).inner.pack ≠ [] →
      (gotSet (initialInner 7 0 "") emptyData [] respEmpty).outcome = FetchOutcome.ok) ∧
    (∀ pr ∈ (gotSet (initialInner 7 0 "") emptyData [] respEmpty).inner.emoji,
      ∀ d ∈ pr.2,
        storeLookup (gotSet (initialInner 7 0 "") emptyData [] respEmpty).store d
          = some true) :=
  gotSet_empty_pack_not_found (initialInner 7 0 "") emptyData [] respEmpty

/-- Claim C10: `loaded()` is true exactly when the fetch completed successfully
with at least one valid sticker: after a transport failure the loaded flag is
set but the pack is empty, so `loaded()` is false; after a successful fetch
whose parsed pack is empty the handler leaves the loaded flag untouched, so
`loaded()` stays false and the dialog title remains in the loading state. -/
theorem loaded_iff_fetch_success_nonempty (st : InnerState) (ds : DataSession)
    (store : DocStore) (resp : WireResponse) (i a : Nat) (n : String) :
    innerLoaded (fetchFail (initialInner i a n)) = false ∧
    (innerLoaded (gotSet st ds store resp).inner = true ↔
      (gotSet st ds store resp).inner.pack ≠ []) ∧
    ((gotSet st ds store resp).inner.pack = [] →
      (gotSet st ds store resp).inner.loadedFlag = st.loadedFlag) ∧
    ((gotSet st ds store resp).inner.pack = [] → st.loadedFlag = false →
      innerTitle (gotSet st ds store resp).inner = TitleState.loading) := by
  have hpk : (gotSet st ds store resp).inner.pack
      = (processDocuments store resp.documents).2 := gotSet_inner_pack st ds store resp
  refine ⟨rfl, ?_, ?_, ?_⟩
  · unfold innerLoaded
    rw [gotSet_inner_loadedFlag, hpk]
    cases hb : (processDocuments store resp.documents).2.isEmpty
    · have hn : (processDocuments store resp.documents).2 ≠ [] := by
        intro hc
        rw [hc] at hb
        simp at hb
      simp [hb, hn]
    · have hn : (processDocuments store resp.documents).2 = [] := by
        simpa [List.isEmpty_iff] using hb
      simp [hb, hn]
  · intro he
    have hb : (processDocuments store resp.documents).2.isEmpty = true := by
      simp [List.isEmpty_iff, hpk.symm.trans he]
    rw [gotSet_inner_loadedFlag, if_pos hb]
  · intro he hl
    have hb : (processDocuments store resp.documents).2.isEmpty = true := by
      simp [List.isEmpty_iff, hpk.symm.trans he]
    unfold innerTitle
    rw [gotSet_inner_loadedFlag, if_pos hb, hl]
    simp

/-- Claim C10 witness: the theorem applied to a response with no valid sticker
against a freshly constructed dialog state. -/
theorem loaded_iff_fetch_success_nonempty_witness :
    innerLoaded (fetchFail (initialInner 7 0 "")) = false ∧
    (innerLoaded (gotSet (initialInner 7 0 "") emptyData [] respEmpty).inner = true ↔
      (gotSet (initialInner 7 0 "") emptyData [] respEmpty).inner.pack ≠ []) ∧
    ((gotSet (initialInner 7 0 "") emptyData [] respEmpty).inner.pack = [] →
      (gotSet (initialInner 7 0 "") emptyData [] respEmpty).inner.loadedFlag
        = (initialInner 7 0 "").loadedFlag) ∧
    ((gotSet (initialInner 7 0 "") emptyData [] respEmpty).inner.pack = [] →
      (initialInner 7 0 "").loadedFlag = false →
      innerTitle (gotSet (initialInner 7 0 "") emptyData [] respEmpty).inner
        = TitleState.loading) :=
  loaded_iff_fetch_success_nonempty (initialInner 7 0 "") emptyData [] respEmpty 7 0 ""
